import Mathlib

/-!
Shallow embedding of the SEO analysis-and-scoring engine of this repository
(src/script.js, class SEOAnalyzer), together with models of the parts of the
engine that the spec documents but whose code (the Python backend
backend/seo_analyzer.py) is not present under src/.

Conventions of the embedding:
* JS numbers that are always integers in the source are Nat (measured
  quantities) or Int (scores, which can go negative before the final
  Math.max clamp).
* JS real-number division and Math.round are modelled on the rationals,
  with jsRound q = floor (q + 1/2), which agrees with Math.round on the
  non-negative values arising here.
* Each metric evaluator takes its measured quantities as explicit
  parameters; in the source these are produced by Math.random placeholders
  inside the evaluator body.  The local issues array of each evaluator is
  kept as a list field alongside its joined rendering in details; the
  display-only specificData object is omitted.
-/

/-- Status labels produced by getScoreStatus (src/script.js:957-962). -/
inductive Status where
  | excellent
  | good
  | warning
  | poor
deriving DecidableEq, Repr

/-- Issue severity labels produced by getIssueSeverity (src/script.js:1240-1245). -/
inductive Severity where
  | critical
  | high
  | medium
  | low
deriving DecidableEq, Repr

/-- Embedding of getScoreStatus (src/script.js:957-962). -/
def getScoreStatus (score : ℤ) : Status :=
  if score ≥ 90 then .excellent
  else if score ≥ 75 then .good
  else if score ≥ 60 then .warning
  else .poor

/-- Embedding of getIssueSeverity (src/script.js:1240-1245). -/
def getIssueSeverity (score : ℤ) : Severity :=
  if score < 30 then .critical
  else if score < 50 then .high
  else if score < 65 then .medium
  else .low

/-- Rank of a severity in the sort comparator of collectAllIssues
(src/script.js:1234-1237): severityOrder = critical 0, high 1, medium 2, low 3. -/
def severityOrder : Severity → ℕ
  | .critical => 0
  | .high => 1
  | .medium => 2
  | .low => 3

/-- The twelve fixed metric keys of setupMetrics (src/script.js:24-123). -/
inductive MetricKey where
  | pageSpeed
  | mobileOptimization
  | metaTags
  | headingStructure
  | imageOptimization
  | internalLinking
  | sslCertificate
  | socialMediaTags
  | contentQuality
  | urlStructure
  | robotsTxt
  | sitemap
deriving DecidableEq, Repr

/-- The metric keys in the declaration order of setupMetrics. -/
def allMetricKeys : List MetricKey :=
  [.pageSpeed, .mobileOptimization, .metaTags, .headingStructure,
   .imageOptimization, .internalLinking, .sslCertificate, .socialMediaTags,
   .contentQuality, .urlStructure, .robotsTxt, .sitemap]

/-- The weight field of each metric in setupMetrics (src/script.js:24-123). -/
def metricWeight : MetricKey → ℕ
  | .pageSpeed => 15
  | .mobileOptimization => 12
  | .metaTags => 10
  | .headingStructure => 8
  | .imageOptimization => 7
  | .internalLinking => 8
  | .sslCertificate => 10
  | .socialMediaTags => 5
  | .contentQuality => 12
  | .urlStructure => 6
  | .robotsTxt => 4
  | .sitemap => 3

/-- The name field of each metric in setupMetrics (src/script.js:24-123). -/
def metricName : MetricKey → String
  | .pageSpeed => "Page Speed"
  | .mobileOptimization => "Mobile Optimization"
  | .metaTags => "Meta Tags"
  | .headingStructure => "Heading Structure"
  | .imageOptimization => "Image Optimization"
  | .internalLinking => "Internal Linking"
  | .sslCertificate => "SSL Certificate"
  | .socialMediaTags => "Social Media Tags"
  | .contentQuality => "Content Quality"
  | .urlStructure => "URL Structure"
  | .robotsTxt => "Robots.txt"
  | .sitemap => "XML Sitemap"

/-- Model of JavaScript Math.round on the non-negative rationals arising in
the aggregators: round half away from zero, i.e. floor (q + 1/2). -/
def jsRound (q : ℚ) : ℤ :=
  ⌊q + 1 / 2⌋

/-- Result object of calculateTotalScore (src/script.js:1278-1283). -/
structure TotalScore where
  score : ℤ
  status : Status
  weightedSum : ℕ
  totalWeight : ℕ
deriving DecidableEq, Repr

/-- Embedding of calculateTotalScore (src/script.js:1260-1284), the frontend
fallback aggregator: weightedSum = Σ score·weight over the metric entries,
totalWeight = Σ weight, totalScore = Math.round (weightedSum / totalWeight). -/
def calculateTotalScore (results : MetricKey → ℕ) : TotalScore :=
  let weightedSum : ℕ := (allMetricKeys.map (fun k => results k * metricWeight k)).sum
  let totalWeight : ℕ := (allMetricKeys.map (fun k => metricWeight k)).sum
  let totalScore : ℤ := jsRound ((weightedSum : ℚ) / (totalWeight : ℚ))
  { score := totalScore
    status := getScoreStatus totalScore
    weightedSum := weightedSum
    totalWeight := totalWeight }

/-- Embedding of generateRecommendations (src/script.js:964-1053): a lookup
from the metric display name to a fixed list of canned strings; the score
parameter is received but never read, exactly as in the source. -/
def generateRecommendations (metricName : String) (score : ℤ) : List String :=
  if metricName = "Page Speed" then
    ["Optimize images by compressing them",
     "Enable browser caching",
     "Minify CSS and JavaScript files",
     "Use a Content Delivery Network (CDN)",
     "Remove unused plugins and scripts"]
  else if metricName = "Mobile Optimization" then
    ["Ensure responsive design works on all devices",
     "Test touch targets are large enough",
     "Optimize font sizes for mobile",
     "Check viewport meta tag",
     "Test mobile usability"]
  else if metricName = "Meta Tags" then
    ["Add unique title tags to all pages",
     "Write compelling meta descriptions",
     "Include relevant keywords naturally",
     "Keep titles under 60 characters",
     "Keep descriptions under 160 characters"]
  else if metricName = "Heading Structure" then
    ["Use only one H1 tag per page",
     "Maintain logical heading hierarchy",
     "Include keywords in headings",
     "Make headings descriptive and clear",
     "Use proper heading tags, not just styling"]
  else if metricName = "Image Optimization" then
    ["Compress images without losing quality",
     "Use appropriate image formats (WebP, JPEG, PNG)",
     "Add alt text to all images",
     "Implement lazy loading",
     "Use descriptive filenames"]
  else if metricName = "Internal Linking" then
    ["Create logical navigation structure",
     "Link related content together",
     "Use descriptive anchor text",
     "Include breadcrumb navigation",
     "Add contextual internal links"]
  else if metricName = "SSL Certificate" then
    ["Install SSL certificate",
     "Redirect HTTP to HTTPS",
     "Update internal links to HTTPS",
     "Fix mixed content issues",
     "Renew certificate before expiration"]
  else if metricName = "Social Media Tags" then
    ["Add Open Graph meta tags",
     "Include Twitter Card tags",
     "Set proper image dimensions",
     "Write compelling social descriptions",
     "Test social media previews"]
  else if metricName = "Content Quality" then
    ["Write original, valuable content",
     "Use proper keyword density",
     "Improve content readability",
     "Add relevant internal links",
     "Update content regularly"]
  else if metricName = "URL Structure" then
    ["Use descriptive, keyword-rich URLs",
     "Keep URLs short and clean",
     "Use hyphens to separate words",
     "Avoid special characters",
     "Include relevant keywords"]
  else if metricName = "Robots.txt" then
    ["Create robots.txt file",
     "Allow important pages to be crawled",
     "Block duplicate or low-quality pages",
     "Reference your sitemap location",
     "Test robots.txt with Google Search Console"]
  else if metricName = "XML Sitemap" then
    ["Create XML sitemap",
     "Submit sitemap to Google Search Console",
     "Keep sitemap updated",
     "Include all important pages",
     "Use proper sitemap format"]
  else
    ["Improve this metric for better SEO performance"]

/-- Per-metric evaluation object returned by each analyzer: the final score,
the joined details string, the local issues array it was joined from, and the
canned recommendations (src/script.js, e.g. lines 360-371). -/
structure AnalysisDetail where
  score : ℤ
  details : String
  issues : List String
  recommendations : List String
deriving DecidableEq, Repr

/-- Embedding of analyzePageSpeed (src/script.js:320-372).  The measured
quantities (randomized placeholders in the source) are the parameters. -/
def analyzePageSpeed (loadTime totalSize imageSize cssSize jsSize : ℕ) : AnalysisDetail :=
  let score : ℤ := 100
  let issues : List String := []
  let (score, issues) :=
    if loadTime > 2000 then
      (score - 30, issues ++ ["页面加载时间过长: " ++ toString loadTime ++ "ms (建议 < 2000ms)"])
    else if loadTime > 1500 then
      (score - 15, issues ++ ["页面加载时间较慢: " ++ toString loadTime ++ "ms (建议 < 1500ms)"])
    else (score, issues)
  let (score, issues) :=
    if totalSize > 1500 then
      (score - 25, issues ++ ["页面总大小过大: " ++ toString totalSize ++ "KB (建议 < 1500KB)"])
    else (score, issues)
  let (score, issues) :=
    if imageSize > 500 then
      (score - 20, issues ++ ["图片资源过大: " ++ toString imageSize ++ "KB (建议 < 500KB)"])
    else (score, issues)
  let (score, issues) :=
    if cssSize > 150 then
      (score - 10, issues ++ ["CSS文件过大: " ++ toString cssSize ++ "KB (建议 < 150KB)"])
    else (score, issues)
  let (score, issues) :=
    if jsSize > 200 then
      (score - 15, issues ++ ["JavaScript文件过大: " ++ toString jsSize ++ "KB (建议 < 200KB)"])
    else (score, issues)
  let score := max score 0
  { score := score
    details := if issues.length > 0 then String.intercalate "; " issues else "页面速度表现良好"
    issues := issues
    recommendations := generateRecommendations "Page Speed" score }

/-- Embedding of analyzeMobileOptimization (src/script.js:375-419). -/
def analyzeMobileOptimization (hasViewport : Bool) (touchTargets smallTouchTargets fontSize : ℕ)
    (hasMobileMenu : Bool) : AnalysisDetail :=
  let score : ℤ := 100
  let issues : List String := []
  let (score, issues) :=
    if !hasViewport then
      (score - 40, issues ++ ["缺少viewport meta标签"])
    else (score, issues)
  let (score, issues) :=
    if smallTouchTargets > 3 then
      (score - 25, issues ++ ["有" ++ toString smallTouchTargets ++ "个触摸目标过小 (< 44px)"])
    else (score, issues)
  let (score, issues) :=
    if fontSize < 14 then
      (score - 20, issues ++ ["字体过小: " ++ toString fontSize ++ "px (建议 ≥ 14px)"])
    else (score, issues)
  let (score, issues) :=
    if !hasMobileMenu then
      (score - 15, issues ++ ["缺少移动端导航菜单"])
    else (score, issues)
  let score := max score 0
  { score := score
    details := if issues.length > 0 then String.intercalate "; " issues else "移动优化表现良好"
    issues := issues
    recommendations := generateRecommendations "Mobile Optimization" score }

/-- Embedding of analyzeMetaTags (src/script.js:422-483). -/
def analyzeMetaTags (titleLength descriptionLength : ℕ) (hasKeywords hasCanonical : Bool)
    (duplicateTitles : ℕ) : AnalysisDetail :=
  let score : ℤ := 100
  let issues : List String := []
  let (score, issues) :=
    if titleLength < 30 then
      (score - 20, issues ++ ["标题过短: " ++ toString titleLength ++ "字符 (建议30-60字符)"])
    else if titleLength > 60 then
      (score - 15, issues ++ ["标题过长: " ++ toString titleLength ++ "字符 (建议30-60字符)"])
    else (score, issues)
  let (score, issues) :=
    if descriptionLength < 120 then
      (score - 15, issues ++ ["描述过短: " ++ toString descriptionLength ++ "字符 (建议120-160字符)"])
    else if descriptionLength > 160 then
      (score - 10, issues ++ ["描述过长: " ++ toString descriptionLength ++ "字符 (建议120-160字符)"])
    else (score, issues)
  let (score, issues) :=
    if !hasKeywords then
      (score - 5, issues ++ ["缺少关键词meta标签"])
    else (score, issues)
  let (score, issues) :=
    if !hasCanonical then
      (score - 10, issues ++ ["缺少canonical标签"])
    else (score, issues)
  let (score, issues) :=
    if duplicateTitles > 0 then
      (score - 20, issues ++ ["发现" ++ toString duplicateTitles ++ "个重复标题"])
    else (score, issues)
  let score := max score 0
  { score := score
    details := if issues.length > 0 then String.intercalate "; " issues else "Meta标签配置良好"
    issues := issues
    recommendations := generateRecommendations "Meta Tags" score }

/-- Embedding of analyzeHeadingStructure (src/script.js:486-563). -/
def analyzeHeadingStructure (h1Count h2Count h3Count missingHeadings skippedLevels : ℕ) :
    AnalysisDetail :=
  let score : ℤ := 100
  let issues : List String := []
  let (score, issues) :=
    if h1Count > 1 then
      (score - 30, issues ++ ["发现" ++ toString h1Count ++ "个H1标签 (建议每页只有1个)"])
    else (score, issues)
  let (score, issues) :=
    if h1Count = 0 then
      (score - 40, issues ++ ["缺少H1标签"])
    else (score, issues)
  let (score, issues) :=
    if missingHeadings > 2 then
      (score - 20, issues ++ ["有" ++ toString missingHeadings ++ "个页面缺少标题标签"])
    else (score, issues)
  let (score, issues) :=
    if skippedLevels > 1 then
      (score - 15, issues ++ ["标题层级跳跃" ++ toString skippedLevels ++ "次"])
    else (score, issues)
  let score := max score 0
  { score := score
    details := if issues.length > 0 then String.intercalate "; " issues else "标题结构合理"
    issues := issues
    recommendations := generateRecommendations "Heading Structure" score }

/-- Embedding of analyzeImageOptimization (src/script.js:566-610).  The
source compares against totalImages * 0.2 and totalImages * 0.3; the
comparison is modelled exactly on the rationals. -/
def analyzeImageOptimization (totalImages largeImages missingAlt webpImages lazyLoaded : ℕ) :
    AnalysisDetail :=
  let score : ℤ := 100
  let issues : List String := []
  let (score, issues) :=
    if largeImages > 3 then
      (score - 25, issues ++ ["有" ++ toString largeImages ++ "张图片过大 (> 500KB)"])
    else (score, issues)
  let (score, issues) :=
    if missingAlt > 2 then
      (score - 20, issues ++ ["有" ++ toString missingAlt ++ "张图片缺少alt属性"])
    else (score, issues)
  let (score, issues) :=
    if (webpImages : ℚ) < (totalImages : ℚ) * 0.2 then
      (score - 15, issues ++ ["只有" ++ toString webpImages ++ "张图片使用WebP格式 (建议 > 20%)"])
    else (score, issues)
  let (score, issues) :=
    if (lazyLoaded : ℚ) < (totalImages : ℚ) * 0.3 then
      (score - 10, issues ++ ["只有" ++ toString lazyLoaded ++ "张图片使用懒加载 (建议 > 30%)"])
    else (score, issues)
  let score := max score 0
  { score := score
    details := if issues.length > 0 then String.intercalate "; " issues else "图片优化良好"
    issues := issues
    recommendations := generateRecommendations "Image Optimization" score }

/-- Embedding of analyzeInternalLinking (src/script.js:613-674). -/
def analyzeInternalLinking (totalLinks brokenLinks externalLinks orphanPages deepLinks : ℕ) :
    AnalysisDetail :=
  let score : ℤ := 100
  let issues : List String := []
  let (score, issues) :=
    if brokenLinks > 1 then
      (score - 30, issues ++ ["发现" ++ toString brokenLinks ++ "个死链接"])
    else (score, issues)
  let (score, issues) :=
    if orphanPages > 3 then
      (score - 25, issues ++ ["有" ++ toString orphanPages ++ "个页面缺少内部链接"])
    else (score, issues)
  let (score, issues) :=
    if totalLinks < 20 then
      (score - 20, issues ++ ["内部链接数量较少: " ++ toString totalLinks ++ "个 (建议 > 20个)"])
    else (score, issues)
  let (score, issues) :=
    if deepLinks > 5 then
      (score - 15, issues ++ ["有" ++ toString deepLinks ++ "个链接层级过深 (> 3层)"])
    else (score, issues)
  let score := max score 0
  { score := score
    details := if issues.length > 0 then String.intercalate "; " issues else "内部链接结构良好"
    issues := issues
    recommendations := generateRecommendations "Internal Linking" score }

/-- Embedding of analyzeSSLCertificate (src/script.js:677-719).  When HTTPS
is absent the score is assigned 0 and the three inner rules are not
evaluated, exactly as in the source. -/
def analyzeSSLCertificate (hasSSL : Bool) (daysToExpire : ℕ) (hasHSTS : Bool)
    (mixedContent : ℕ) : AnalysisDetail :=
  let score : ℤ := 100
  let issues : List String := []
  let (score, issues) :=
    if !hasSSL then
      ((0 : ℤ), issues ++ ["网站未使用HTTPS"])
    else
      let (score, issues) :=
        if daysToExpire < 30 then
          (score - 20, issues ++ ["SSL证书将在" ++ toString daysToExpire ++ "天后过期"])
        else (score, issues)
      let (score, issues) :=
        if !hasHSTS then
          (score - 15, issues ++ ["缺少HSTS安全头"])
        else (score, issues)
      let (score, issues) :=
        if mixedContent > 0 then
          (score - 25, issues ++ ["发现" ++ toString mixedContent ++ "个混合内容问题"])
        else (score, issues)
      (score, issues)
  let score := max score 0
  { score := score
    details := if issues.length > 0 then String.intercalate "; " issues else "SSL配置安全"
    issues := issues
    recommendations := generateRecommendations "SSL Certificate" score }

/-- Embedding of analyzeSocialMediaTags (src/script.js:722-764). -/
def analyzeSocialMediaTags (hasOpenGraph hasTwitterCards hasImage hasDescription : Bool) :
    AnalysisDetail :=
  let score : ℤ := 100
  let issues : List String := []
  let (score, issues) :=
    if !hasOpenGraph then
      (score - 30, issues ++ ["缺少Open Graph标签"])
    else (score, issues)
  let (score, issues) :=
    if !hasTwitterCards then
      (score - 25, issues ++ ["缺少Twitter Card标签"])
    else (score, issues)
  let (score, issues) :=
    if !hasImage then
      (score - 20, issues ++ ["缺少社交媒体图片"])
    else (score, issues)
  let (score, issues) :=
    if !hasDescription then
      (score - 15, issues ++ ["缺少社交媒体描述"])
    else (score, issues)
  let score := max score 0
  { score := score
    details := if issues.length > 0 then String.intercalate "; " issues else "社交媒体标签完整"
    issues := issues
    recommendations := generateRecommendations "Social Media Tags" score }

/-- Embedding of analyzeContentQuality (src/script.js:767-816). -/
def analyzeContentQuality (wordCount keywordDensity readabilityScore duplicateContent
    internalLinks : ℕ) : AnalysisDetail :=
  let score : ℤ := 100
  let issues : List String := []
  let (score, issues) :=
    if wordCount < 500 then
      (score - 25, issues ++ ["内容过短: " ++ toString wordCount ++ "词 (建议 > 500词)"])
    else (score, issues)
  let (score, issues) :=
    if keywordDensity < 1 ∨ keywordDensity > 3 then
      (score - 20, issues ++ ["关键词密度不当: " ++ toString keywordDensity ++ "% (建议1-3%)"])
    else (score, issues)
  let (score, issues) :=
    if readabilityScore < 50 then
      (score - 15, issues ++ ["可读性较差: " ++ toString readabilityScore ++ "分 (建议 > 50分)"])
    else (score, issues)
  let (score, issues) :=
    if duplicateContent > 1 then
      (score - 30, issues ++ ["发现" ++ toString duplicateContent ++ "处重复内容"])
    else (score, issues)
  let (score, issues) :=
    if internalLinks < 3 then
      (score - 10, issues ++ ["内部链接较少: " ++ toString internalLinks ++ "个 (建议 > 3个)"])
    else (score, issues)
  let score := max score 0
  { score := score
    details := if issues.length > 0 then String.intercalate "; " issues else "内容质量良好"
    issues := issues
    recommendations := generateRecommendations "Content Quality" score }

/-- Embedding of analyzeURLStructure (src/script.js:819-863).  hasNumbers is
measured in the source but used by no rule. -/
def analyzeURLStructure (urlLength : ℕ) (hasKeywords hasSpecialChars hasNumbers : Bool)
    (depth : ℕ) : AnalysisDetail :=
  let score : ℤ := 100
  let issues : List String := []
  let (score, issues) :=
    if urlLength > 60 then
      (score - 20, issues ++ ["URL过长: " ++ toString urlLength ++ "字符 (建议 < 60字符)"])
    else (score, issues)
  let (score, issues) :=
    if !hasKeywords then
      (score - 25, issues ++ ["URL中缺少关键词"])
    else (score, issues)
  let (score, issues) :=
    if hasSpecialChars then
      (score - 15, issues ++ ["URL包含特殊字符"])
    else (score, issues)
  let (score, issues) :=
    if depth > 3 then
      (score - 10, issues ++ ["URL层级过深: " ++ toString depth ++ "层 (建议 < 3层)"])
    else (score, issues)
  let score := max score 0
  { score := score
    details := if issues.length > 0 then String.intercalate "; " issues else "URL结构良好"
    issues := issues
    recommendations := generateRecommendations "URL Structure" score }

/-- Embedding of analyzeRobotsTxt (src/script.js:866-908).  The three inner
rules are evaluated only when the robots.txt file exists. -/
def analyzeRobotsTxt (hasRobotsTxt blocksImportantPages hasSitemapReference blocksCSS : Bool) :
    AnalysisDetail :=
  let score : ℤ := 100
  let issues : List String := []
  let (score, issues) :=
    if !hasRobotsTxt then
      (score - 40, issues ++ ["缺少robots.txt文件"])
    else
      let (score, issues) :=
        if blocksImportantPages then
          (score - 30, issues ++ ["robots.txt阻止了重要页面"])
        else (score, issues)
      let (score, issues) :=
        if !hasSitemapReference then
          (score - 15, issues ++ ["robots.txt中缺少sitemap引用"])
        else (score, issues)
      let (score, issues) :=
        if blocksCSS then
          (score - 10, issues ++ ["robots.txt阻止了CSS文件"])
        else (score, issues)
      (score, issues)
  let score := max score 0
  { score := score
    details := if issues.length > 0 then String.intercalate "; " issues else "robots.txt配置正确"
    issues := issues
    recommendations := generateRecommendations "Robots.txt" score }

/-- Embedding of analyzeSitemap (src/script.js:911-955).  The three inner
rules are evaluated only when the sitemap exists. -/
def analyzeSitemap (hasSitemap : Bool) (totalPages lastModified : ℕ)
    (hasImages submittedToGoogle : Bool) : AnalysisDetail :=
  let score : ℤ := 100
  let issues : List String := []
  let (score, issues) :=
    if !hasSitemap then
      (score - 50, issues ++ ["缺少XML站点地图"])
    else
      let (score, issues) :=
        if lastModified > 7 then
          (score - 20, issues ++ ["站点地图" ++ toString lastModified ++ "天未更新"])
        else (score, issues)
      let (score, issues) :=
        if !hasImages then
          (score - 10, issues ++ ["站点地图中缺少图片信息"])
        else (score, issues)
      let (score, issues) :=
        if !submittedToGoogle then
          (score - 15, issues ++ ["站点地图未提交到Google Search Console"])
        else (score, issues)
      (score, issues)
  let score := max score 0
  { score := score
    details := if issues.length > 0 then String.intercalate "; " issues else "XML站点地图配置良好"
    issues := issues
    recommendations := generateRecommendations "XML Sitemap" score }

/-- One bundle of measured quantities for the whole page, covering the
inputs of all twelve evaluators.  In the source each evaluator draws these
from Math.random placeholders when generateDetailedAnalysis dispatches to
it; fields that collide across metrics carry a disambiguating prefix. -/
structure Measurements where
  (loadTime totalSize imageSize cssSize jsSize : ℕ)
  (hasViewport : Bool)
  (touchTargets smallTouchTargets fontSize : ℕ)
  (hasMobileMenu : Bool)
  (titleLength descriptionLength : ℕ)
  (hasKeywords hasCanonical : Bool)
  (duplicateTitles : ℕ)
  (h1Count h2Count h3Count missingHeadings skippedLevels : ℕ)
  (totalImages largeImages missingAlt webpImages lazyLoaded : ℕ)
  (totalLinks brokenLinks externalLinks orphanPages deepLinks : ℕ)
  (hasSSL : Bool)
  (daysToExpire : ℕ)
  (hasHSTS : Bool)
  (mixedContent : ℕ)
  (hasOpenGraph hasTwitterCards hasImage hasDescription : Bool)
  (wordCount keywordDensity readabilityScore duplicateContent contentInternalLinks : ℕ)
  (urlLength : ℕ)
  (urlHasKeywords urlHasSpecialChars urlHasNumbers : Bool)
  (urlDepth : ℕ)
  (hasRobotsTxt blocksImportantPages hasSitemapReference blocksCSS : Bool)
  (hasSitemap : Bool)
  (sitemapTotalPages lastModifiedDays : ℕ)
  (sitemapHasImages submittedToGoogle : Bool)
deriving DecidableEq, Repr

/-- Embedding of the switch of generateDetailedAnalysis
(src/script.js:288-317): dispatch on the metric key string; any key outside
the twelve cases falls to the default object with score 50 and empty
recommendations (its status field, poor in the source, is recomputed from
the score by generateMetricResult). -/
def generateDetailedAnalysis (metricKey : String) (m : Measurements) : AnalysisDetail :=
  if metricKey = "pageSpeed" then
    analyzePageSpeed m.loadTime m.totalSize m.imageSize m.cssSize m.jsSize
  else if metricKey = "mobileOptimization" then
    analyzeMobileOptimization m.hasViewport m.touchTargets m.smallTouchTargets m.fontSize
      m.hasMobileMenu
  else if metricKey = "metaTags" then
    analyzeMetaTags m.titleLength m.descriptionLength m.hasKeywords m.hasCanonical
      m.duplicateTitles
  else if metricKey = "headingStructure" then
    analyzeHeadingStructure m.h1Count m.h2Count m.h3Count m.missingHeadings m.skippedLevels
  else if metricKey = "imageOptimization" then
    analyzeImageOptimization m.totalImages m.largeImages m.missingAlt m.webpImages m.lazyLoaded
  else if metricKey = "internalLinking" then
    analyzeInternalLinking m.totalLinks m.brokenLinks m.externalLinks m.orphanPages m.deepLinks
  else if metricKey = "sslCertificate" then
    analyzeSSLCertificate m.hasSSL m.daysToExpire m.hasHSTS m.mixedContent
  else if metricKey = "socialMediaTags" then
    analyzeSocialMediaTags m.hasOpenGraph m.hasTwitterCards m.hasImage m.hasDescription
  else if metricKey = "contentQuality" then
    analyzeContentQuality m.wordCount m.keywordDensity m.readabilityScore m.duplicateContent
      m.contentInternalLinks
  else if metricKey = "urlStructure" then
    analyzeURLStructure m.urlLength m.urlHasKeywords m.urlHasSpecialChars m.urlHasNumbers
      m.urlDepth
  else if metricKey = "robotsTxt" then
    analyzeRobotsTxt m.hasRobotsTxt m.blocksImportantPages m.hasSitemapReference m.blocksCSS
  else if metricKey = "sitemap" then
    analyzeSitemap m.hasSitemap m.sitemapTotalPages m.lastModifiedDays m.sitemapHasImages
      m.submittedToGoogle
  else
    { score := 50, details := "", issues := [], recommendations := [] }

/-- The twelve metric key strings of the dispatch switch, in source order. -/
def validMetricKeys : List String :=
  ["pageSpeed", "mobileOptimization", "metaTags", "headingStructure", "imageOptimization",
   "internalLinking", "sslCertificate", "socialMediaTags", "contentQuality", "urlStructure",
   "robotsTxt", "sitemap"]

/-- Per-metric result object assembled by generateMetricResult
(src/script.js:275-286): the evaluator output with the status derived from
the score by the shared thresholds. -/
structure MetricResult where
  score : ℤ
  status : Status
  recommendations : List String
  details : String
  issues : List String
deriving DecidableEq, Repr

/-- Embedding of generateMetricResult (src/script.js:275-286). -/
def generateMetricResult (metricKey : String) (m : Measurements) : MetricResult :=
  let detailedAnalysis := generateDetailedAnalysis metricKey m
  { score := detailedAnalysis.score
    status := getScoreStatus detailedAnalysis.score
    recommendations := detailedAnalysis.recommendations
    details := detailedAnalysis.details
    issues := detailedAnalysis.issues }

/-- Event shapes of the streamed response consumed by performAnalysis
(src/script.js:204-216): progress carries a message, complete carries the
analysis report payload, error carries a message.  The report payload type
is a parameter of the model. -/
inductive SSEvent (α : Type) where
  | progress (message : String)
  | complete (data : α)
  | error (message : String)
deriving DecidableEq, Repr

/-- Predicate selecting progress events. -/
def SSEvent.isProgress {α : Type} : SSEvent α → Prop
  | .progress _ => True
  | _ => False

instance {α : Type} (e : SSEvent α) : Decidable e.isProgress := by
  cases e <;> simp [SSEvent.isProgress] <;> infer_instance

/-- Loop body of the stream consumer in performAnalysis
(src/script.js:193-217): progress events update the progress display only,
a complete event stores its payload in result, an error event throws with
its message, ending the loop. -/
def consumeEvents {α : Type} (events : List (SSEvent α)) (result : Option α) :
    Except String (Option α) :=
  match events with
  | [] => .ok result
  | .progress _ :: rest => consumeEvents rest result
  | .complete d :: rest => consumeEvents rest (some d)
  | .error message :: _ => .error message

/-- Embedding of the stream consumption of performAnalysis
(src/script.js:166-248), at the level of the decoded event log: consume the
events starting from result = null; afterwards a missing result is reported
as the failure 未收到分析结果 (no analysis result received). -/
def performAnalysis {α : Type} (events : List (SSEvent α)) : Except String α :=
  match consumeEvents events none with
  | .error message => .error message
  | .ok none => .error "未收到分析结果"
  | .ok (some result) => .ok result

/-- Issue record built by extractIssueData (src/script.js:1247-1258). -/
structure IssueData where
  metric : String
  score : ℤ
  severity : Severity
  details : String
  recommendations : List String
deriving DecidableEq, Repr

/-- Embedding of extractIssueData (src/script.js:1247-1258); specificData is
omitted and only the first 3 recommendations are kept, as in the source. -/
def extractIssueData (metricName : String) (result : MetricResult) (severity : Severity) :
    IssueData :=
  { metric := metricName
    score := result.score
    severity := severity
    details := result.details
    recommendations := result.recommendations.take 3 }

/-- Embedding of collectAllIssues (src/script.js:1219-1238): keep the
metrics scoring below 75, tag each with its severity and display name, and
sort ascending by severity rank.  The sort models the JavaScript
Array.prototype.sort with the comparator over severityOrder (stable in the
engines the source targets), as a stable merge sort. -/
def collectAllIssues (results : List (MetricKey × MetricResult)) : List IssueData :=
  let issues := (results.filter (fun kr => kr.2.score < 75)).map
    (fun kr => extractIssueData (metricName kr.1) kr.2 (getIssueSeverity kr.2.score))
  issues.mergeSort (fun a b => severityOrder a.severity ≤ severityOrder b.severity)

/-- Categories of the website classifier described by the spec (the
classifier itself lives in the absent Python backend). -/
inductive WebsiteCategory where
  | content
  | functional
  | ecommerce
deriving DecidableEq, Repr

/-- Modelled from the spec: the per-category weight profiles of the backend
WeightProfileSelector (backend/seo_analyzer.py, not under src/).  Spec §4.3
fixes the leading weights of each profile and says the remaining metrics
share the rest (content: remaining 7 share 25; functional: remaining 8
share 27; ecommerce: remaining 8 share 37), with the even split of the
remainder taken from the spec illustration in §8. -/
def specProfile : WebsiteCategory → MetricKey → ℚ
  | .content, .contentQuality => 20
  | .content, .pageSpeed => 18
  | .content, .mobileOptimization => 15
  | .content, .metaTags => 12
  | .content, .sslCertificate => 10
  | .content, _ => 25 / 7
  | .functional, .pageSpeed => 25
  | .functional, .mobileOptimization => 20
  | .functional, .sslCertificate => 18
  | .functional, .internalLinking => 10
  | .functional, _ => 27 / 8
  | .ecommerce, .mobileOptimization => 18
  | .ecommerce, .pageSpeed => 16
  | .ecommerce, .sslCertificate => 15
  | .ecommerce, .metaTags => 14
  | .ecommerce, _ => 37 / 8

/-- Modelled from the spec: the backend total-score aggregator of §4.4
(backend/seo_analyzer.py, not under src/): weightedSum = Σ score·weight,
totalScore = round (weightedSum / 100 * 1.2) clamped to the range 0-120,
status from the shared thresholds. -/
def aggregate (scores : MetricKey → ℕ) (weights : MetricKey → ℕ) : ℤ × Status :=
  let weightedSum : ℕ := (allMetricKeys.map (fun k => scores k * weights k)).sum
  let totalScore : ℤ := min 120 (max 0 (jsRound ((weightedSum : ℚ) / 100 * 1.2)))
  (totalScore, getScoreStatus totalScore)

/-- Deduction of the load-time rule pair of analyzePageSpeed: the two
branches are an else-if chain, so at most one of them applies. -/
def loadTimeDeduction (loadTime : ℕ) : ℤ :=
  if loadTime > 2000 then 30 else if loadTime > 1500 then 15 else 0

/-- Deduction of the total-size rule of analyzePageSpeed. -/
def totalSizeDeduction (totalSize : ℕ) : ℤ :=
  if totalSize > 1500 then 25 else 0

/-- Deduction of the image-size rule of analyzePageSpeed. -/
def imageSizeDeduction (imageSize : ℕ) : ℤ :=
  if imageSize > 500 then 20 else 0

/-- Deduction of the CSS-size rule of analyzePageSpeed. -/
def cssSizeDeduction (cssSize : ℕ) : ℤ :=
  if cssSize > 150 then 10 else 0

/-- Deduction of the JS-size rule of analyzePageSpeed. -/
def jsSizeDeduction (jsSize : ℕ) : ℤ :=
  if jsSize > 200 then 15 else 0

/-- Deduction of the expiry rule of analyzeSSLCertificate. -/
def sslExpiryDeduction (daysToExpire : ℕ) : ℤ :=
  if daysToExpire < 30 then 20 else 0

/-- Deduction of the HSTS rule of analyzeSSLCertificate. -/
def sslHSTSDeduction (hasHSTS : Bool) : ℤ :=
  if !hasHSTS then 15 else 0

/-- Deduction of the mixed-content rule of analyzeSSLCertificate. -/
def sslMixedContentDeduction (mixedContent : ℕ) : ℤ :=
  if mixedContent > 0 then 25 else 0

/-- Deduction of the important-pages rule of analyzeRobotsTxt. -/
def robotsBlocksPagesDeduction (blocksImportantPages : Bool) : ℤ :=
  if blocksImportantPages then 30 else 0

/-- Deduction of the sitemap-reference rule of analyzeRobotsTxt. -/
def robotsSitemapRefDeduction (hasSitemapReference : Bool) : ℤ :=
  if !hasSitemapReference then 15 else 0

/-- Deduction of the CSS-blocking rule of analyzeRobotsTxt. -/
def robotsBlocksCSSDeduction (blocksCSS : Bool) : ℤ :=
  if blocksCSS then 10 else 0

/-- C3: the status label is a pure function of the score via the shared
thresholds: at least 90 is excellent, at least 75 is good, at least 60 is
warning, below 60 is poor; the per-metric results of generateMetricResult
and the total of calculateTotalScore both derive their status from their
score through this one function. -/
theorem getScoreStatus_thresholds :
    (∀ score : ℤ,
      (getScoreStatus score = .excellent ↔ 90 ≤ score) ∧
      (getScoreStatus score = .good ↔ 75 ≤ score ∧ score < 90) ∧
      (getScoreStatus score = .warning ↔ 60 ≤ score ∧ score < 75) ∧
      (getScoreStatus score = .poor ↔ score < 60)) ∧
    (∀ (metricKey : String) (m : Measurements),
      (generateMetricResult metricKey m).status =
        getScoreStatus (generateMetricResult metricKey m).score) ∧
    (∀ results : MetricKey → ℕ,
      (calculateTotalScore results).status =
        getScoreStatus (calculateTotalScore results).score) := by
  refine ⟨?_, fun _ _ => rfl, fun _ => rfl⟩
  intro score
  unfold getScoreStatus
  split_ifs <;> refine ⟨?_, ?_, ?_, ?_⟩ <;> simp <;> omega

/-- Helper: a length bound on each branch of an if expression bounds the
length of the whole expression. -/
theorem length_ite_le (c : Prop) [Decidable c] (a b : List String)
    (ha : a.length ≤ 5) (hb : b.length ≤ 5) : (if c then a else b).length ≤ 5 := by
  split
  case isTrue => exact ha
  case isFalse => exact hb

/-- C5: the recommendations list is a fixed, metric-keyed list of at most 5
canned strings, independent of the score input: two runs of
generateRecommendations at the same metric name and any two scores return
identical lists. -/
theorem generateRecommendations_fixed :
    (∀ (metricName : String) (s1 s2 : ℤ),
      generateRecommendations metricName s1 = generateRecommendations metricName s2) ∧
    (∀ (metricName : String) (s : ℤ), (generateRecommendations metricName s).length ≤ 5) := by
  refine ⟨fun _ _ _ => rfl, ?_⟩
  intro metricName s
  unfold generateRecommendations
  refine length_ite_le _ _ _ (by decide) ?_
  refine length_ite_le _ _ _ (by decide) ?_
  refine length_ite_le _ _ _ (by decide) ?_
  refine length_ite_le _ _ _ (by decide) ?_
  refine length_ite_le _ _ _ (by decide) ?_
  refine length_ite_le _ _ _ (by decide) ?_
  refine length_ite_le _ _ _ (by decide) ?_
  refine length_ite_le _ _ _ (by decide) ?_
  refine length_ite_le _ _ _ (by decide) ?_
  refine length_ite_le _ _ _ (by decide) ?_
  refine length_ite_le _ _ _ (by decide) ?_
  refine length_ite_le _ _ _ (by decide) (by decide)

/-- C9: the frontend fallback aggregator is average-preserving: when all 12
metric results carry the same score s in the range 0-100, calculateTotalScore
returns exactly s (the weighted sum is divided by the total weight 100 and
no scale multiplier is applied). -/
theorem calculateTotalScore_uniform (s : ℕ) (h : s ≤ 100) :
    (calculateTotalScore (fun _ => s)).score = (s : ℤ) := by
  simp only [calculateTotalScore, allMetricKeys, metricWeight, List.map_cons, List.map_nil,
    List.sum_cons, List.sum_nil, jsRound]
  push_cast
  norm_num
  have harg : ((s : ℚ) * 15 + ((s : ℚ) * 12 + ((s : ℚ) * 10 + ((s : ℚ) * 8 + ((s : ℚ) * 7 +
      ((s : ℚ) * 8 + ((s : ℚ) * 10 + ((s : ℚ) * 5 + ((s : ℚ) * 12 + ((s : ℚ) * 6 +
      ((s : ℚ) * 4 + (s : ℚ) * 3))))))))))) = (s : ℚ) * 100 := by
    ring
  rw [harg]
  have hdiv : (s : ℚ) * 100 / 100 = (s : ℚ) := by
    field_simp
  rw [hdiv, Int.floor_nat_add]
  norm_num

/-- Witness for calculateTotalScore_uniform at the uniform score 85. -/
theorem calculateTotalScore_uniform_witness :
    (85 : ℕ) ≤ 100 ∧ (calculateTotalScore (fun _ => 85)).score = (85 : ℤ) :=
  ⟨by decide, calculateTotalScore_uniform 85 (by decide)⟩

/-- Helper: range bound for analyzePageSpeed. -/
theorem pageSpeed_score_in_range :
    ∀ loadTime totalSize imageSize cssSize jsSize : ℕ,
      0 ≤ (analyzePageSpeed loadTime totalSize imageSize cssSize jsSize).score ∧
        (analyzePageSpeed loadTime totalSize imageSize cssSize jsSize).score ≤ 100 := by
  intros; simp only [analyzePageSpeed]; split_ifs <;> dsimp only <;> omega

/-- Helper: range bound for analyzeMobileOptimization. -/
theorem mobileOptimization_score_in_range :
    ∀ (hasViewport : Bool) (touchTargets smallTouchTargets fontSize : ℕ) (hasMobileMenu : Bool),
      0 ≤ (analyzeMobileOptimization hasViewport touchTargets smallTouchTargets fontSize
          hasMobileMenu).score ∧
        (analyzeMobileOptimization hasViewport touchTargets smallTouchTargets fontSize
          hasMobileMenu).score ≤ 100 := by
  intros; simp only [analyzeMobileOptimization]; split_ifs <;> dsimp only <;> omega

/-- Helper: range bound for analyzeMetaTags. -/
theorem metaTags_score_in_range :
    ∀ (titleLength descriptionLength : ℕ) (hasKeywords hasCanonical : Bool)
        (duplicateTitles : ℕ),
      0 ≤ (analyzeMetaTags titleLength descriptionLength hasKeywords hasCanonical
          duplicateTitles).score ∧
        (analyzeMetaTags titleLength descriptionLength hasKeywords hasCanonical
          duplicateTitles).score ≤ 100 := by
  intros; simp only [analyzeMetaTags]; split_ifs <;> dsimp only <;> omega

/-- Helper: range bound for analyzeHeadingStructure. -/
theorem headingStructure_score_in_range :
    ∀ h1Count h2Count h3Count missingHeadings skippedLevels : ℕ,
      0 ≤ (analyzeHeadingStructure h1Count h2Count h3Count missingHeadings skippedLevels).score ∧
        (analyzeHeadingStructure h1Count h2Count h3Count missingHeadings
          skippedLevels).score ≤ 100 := by
  intros; simp only [analyzeHeadingStructure]; split_ifs <;> dsimp only <;> omega

/-- Helper: range bound for analyzeImageOptimization. -/
theorem imageOptimization_score_in_range :
    ∀ totalImages largeImages missingAlt webpImages lazyLoaded : ℕ,
      0 ≤ (analyzeImageOptimization totalImages largeImages missingAlt webpImages
          lazyLoaded).score ∧
        (analyzeImageOptimization totalImages largeImages missingAlt webpImages
          lazyLoaded).score ≤ 100 := by
  intros; simp only [analyzeImageOptimization]; split_ifs <;> dsimp only <;> omega

/-- Helper: range bound for analyzeInternalLinking. -/
theorem internalLinking_score_in_range :
    ∀ totalLinks brokenLinks externalLinks orphanPages deepLinks : ℕ,
      0 ≤ (analyzeInternalLinking totalLinks brokenLinks externalLinks orphanPages
          deepLinks).score ∧
        (analyzeInternalLinking totalLinks brokenLinks externalLinks orphanPages
          deepLinks).score ≤ 100 := by
  intros; simp only [analyzeInternalLinking]; split_ifs <;> dsimp only <;> omega

/-- Helper: range bound for analyzeSSLCertificate. -/
theorem sslCertificate_score_in_range :
    ∀ (hasSSL : Bool) (daysToExpire : ℕ) (hasHSTS : Bool) (mixedContent : ℕ),
      0 ≤ (analyzeSSLCertificate hasSSL daysToExpire hasHSTS mixedContent).score ∧
        (analyzeSSLCertificate hasSSL daysToExpire hasHSTS mixedContent).score ≤ 100 := by
  intros; simp only [analyzeSSLCertificate]; split_ifs <;> dsimp only <;> omega

/-- Helper: range bound for analyzeSocialMediaTags. -/
theorem socialMediaTags_score_in_range :
    ∀ hasOpenGraph hasTwitterCards hasImage hasDescription : Bool,
      0 ≤ (analyzeSocialMediaTags hasOpenGraph hasTwitterCards hasImage hasDescription).score ∧
        (analyzeSocialMediaTags hasOpenGraph hasTwitterCards hasImage
          hasDescription).score ≤ 100 := by
  intros; simp only [analyzeSocialMediaTags]; split_ifs <;> dsimp only <;> omega

/-- Helper: range bound for analyzeContentQuality. -/
theorem contentQuality_score_in_range :
    ∀ wordCount keywordDensity readabilityScore duplicateContent internalLinks : ℕ,
      0 ≤ (analyzeContentQuality wordCount keywordDensity readabilityScore duplicateContent
          internalLinks).score ∧
        (analyzeContentQuality wordCount keywordDensity readabilityScore duplicateContent
          internalLinks).score ≤ 100 := by
  intros; simp only [analyzeContentQuality]; split_ifs <;> dsimp only <;> omega

/-- Helper: range bound for analyzeURLStructure. -/
theorem urlStructure_score_in_range :
    ∀ (urlLength : ℕ) (hasKeywords hasSpecialChars hasNumbers : Bool) (depth : ℕ),
      0 ≤ (analyzeURLStructure urlLength hasKeywords hasSpecialChars hasNumbers depth).score ∧
        (analyzeURLStructure urlLength hasKeywords hasSpecialChars hasNumbers
          depth).score ≤ 100 := by
  intros; simp only [analyzeURLStructure]; split_ifs <;> dsimp only <;> omega

/-- Helper: range bound for analyzeRobotsTxt. -/
theorem robotsTxt_score_in_range :
    ∀ hasRobotsTxt blocksImportantPages hasSitemapReference blocksCSS : Bool,
      0 ≤ (analyzeRobotsTxt hasRobotsTxt blocksImportantPages hasSitemapReference
          blocksCSS).score ∧
        (analyzeRobotsTxt hasRobotsTxt blocksImportantPages hasSitemapReference
          blocksCSS).score ≤ 100 := by
  intros; simp only [analyzeRobotsTxt]; split_ifs <;> dsimp only <;> omega

/-- Helper: range bound for analyzeSitemap. -/
theorem sitemap_score_in_range :
    ∀ (hasSitemap : Bool) (totalPages lastModified : ℕ) (hasImages submittedToGoogle : Bool),
      0 ≤ (analyzeSitemap hasSitemap totalPages lastModified hasImages
          submittedToGoogle).score ∧
        (analyzeSitemap hasSitemap totalPages lastModified hasImages
          submittedToGoogle).score ≤ 100 := by
  intros; simp only [analyzeSitemap]; split_ifs <;> dsimp only <;> omega

/-- C2: for every metric evaluator and every input the returned score lies
in the closed range 0-100: each evaluator starts at 100, only subtracts
fixed deductions (or assigns 0), and clamps with Math.max at 0. -/
theorem evaluator_scores_in_range :
    (∀ loadTime totalSize imageSize cssSize jsSize : ℕ,
      0 ≤ (analyzePageSpeed loadTime totalSize imageSize cssSize jsSize).score ∧
        (analyzePageSpeed loadTime totalSize imageSize cssSize jsSize).score ≤ 100) ∧
    (∀ (hasViewport : Bool) (touchTargets smallTouchTargets fontSize : ℕ) (hasMobileMenu : Bool),
      0 ≤ (analyzeMobileOptimization hasViewport touchTargets smallTouchTargets fontSize
          hasMobileMenu).score ∧
        (analyzeMobileOptimization hasViewport touchTargets smallTouchTargets fontSize
          hasMobileMenu).score ≤ 100) ∧
    (∀ (titleLength descriptionLength : ℕ) (hasKeywords hasCanonical : Bool)
        (duplicateTitles : ℕ),
      0 ≤ (analyzeMetaTags titleLength descriptionLength hasKeywords hasCanonical
          duplicateTitles).score ∧
        (analyzeMetaTags titleLength descriptionLength hasKeywords hasCanonical
          duplicateTitles).score ≤ 100) ∧
    (∀ h1Count h2Count h3Count missingHeadings skippedLevels : ℕ,
      0 ≤ (analyzeHeadingStructure h1Count h2Count h3Count missingHeadings skippedLevels).score ∧
        (analyzeHeadingStructure h1Count h2Count h3Count missingHeadings
          skippedLevels).score ≤ 100) ∧
    (∀ totalImages largeImages missingAlt webpImages lazyLoaded : ℕ,
      0 ≤ (analyzeImageOptimization totalImages largeImages missingAlt webpImages
          lazyLoaded).score ∧
        (analyzeImageOptimization totalImages largeImages missingAlt webpImages
          lazyLoaded).score ≤ 100) ∧
    (∀ totalLinks brokenLinks externalLinks orphanPages deepLinks : ℕ,
      0 ≤ (analyzeInternalLinking totalLinks brokenLinks externalLinks orphanPages
          deepLinks).score ∧
        (analyzeInternalLinking totalLinks brokenLinks externalLinks orphanPages
          deepLinks).score ≤ 100) ∧
    (∀ (hasSSL : Bool) (daysToExpire : ℕ) (hasHSTS : Bool) (mixedContent : ℕ),
      0 ≤ (analyzeSSLCertificate hasSSL daysToExpire hasHSTS mixedContent).score ∧
        (analyzeSSLCertificate hasSSL daysToExpire hasHSTS mixedContent).score ≤ 100) ∧
    (∀ hasOpenGraph hasTwitterCards hasImage hasDescription : Bool,
      0 ≤ (analyzeSocialMediaTags hasOpenGraph hasTwitterCards hasImage hasDescription).score ∧
        (analyzeSocialMediaTags hasOpenGraph hasTwitterCards hasImage
          hasDescription).score ≤ 100) ∧
    (∀ wordCount keywordDensity readabilityScore duplicateContent internalLinks : ℕ,
      0 ≤ (analyzeContentQuality wordCount keywordDensity readabilityScore duplicateContent
          internalLinks).score ∧
        (analyzeContentQuality wordCount keywordDensity readabilityScore duplicateContent
          internalLinks).score ≤ 100) ∧
    (∀ (urlLength : ℕ) (hasKeywords hasSpecialChars hasNumbers : Bool) (depth : ℕ),
      0 ≤ (analyzeURLStructure urlLength hasKeywords hasSpecialChars hasNumbers depth).score ∧
        (analyzeURLStructure urlLength hasKeywords hasSpecialChars hasNumbers
          depth).score ≤ 100) ∧
    (∀ hasRobotsTxt blocksImportantPages hasSitemapReference blocksCSS : Bool,
      0 ≤ (analyzeRobotsTxt hasRobotsTxt blocksImportantPages hasSitemapReference
          blocksCSS).score ∧
        (analyzeRobotsTxt hasRobotsTxt blocksImportantPages hasSitemapReference
          blocksCSS).score ≤ 100) ∧
    (∀ (hasSitemap : Bool) (totalPages lastModified : ℕ) (hasImages submittedToGoogle : Bool),
      0 ≤ (analyzeSitemap hasSitemap totalPages lastModified hasImages
          submittedToGoogle).score ∧
        (analyzeSitemap hasSitemap totalPages lastModified hasImages
          submittedToGoogle).score ≤ 100) := by
  exact ⟨pageSpeed_score_in_range, mobileOptimization_score_in_range,
    metaTags_score_in_range, headingStructure_score_in_range,
    imageOptimization_score_in_range, internalLinking_score_in_range,
    sslCertificate_score_in_range, socialMediaTags_score_in_range,
    contentQuality_score_in_range, urlStructure_score_in_range,
    robotsTxt_score_in_range, sitemap_score_in_range⟩

/-- C4 counterexample: penalty rules are not all evaluated unconditionally
and independently.  With mixedContent = 1 the mixed-content rule condition
holds, yet the rule fires (issue recorded, 25 deducted) only when hasSSL is
true: with hasSSL false the rule is skipped because the HTTPS rule fired.
Likewise with loadTime = 2500 the condition of the 1500ms rule holds, but
the rule is skipped because the 2000ms rule of its else-if pair fired. -/
theorem penalty_rules_not_independent :
    (1 : ℕ) > 0 ∧
    "发现1个混合内容问题" ∈ (analyzeSSLCertificate true 100 true 1).issues ∧
    "发现1个混合内容问题" ∉ (analyzeSSLCertificate false 100 true 1).issues ∧
    (analyzeSSLCertificate false 100 true 1).issues = ["网站未使用HTTPS"] ∧
    (2500 : ℕ) > 1500 ∧
    "页面加载时间较慢: 2500ms (建议 < 1500ms)" ∉ (analyzePageSpeed 2500 100 100 100 100).issues := by
  decide

/-- C4 amended: penalty deductions do stack additively in one run, but the
rules are not all unconditional: in analyzePageSpeed the two load-time
thresholds form an else-if pair of which at most one fires (folded into
loadTimeDeduction), and the three inner rules of analyzeSSLCertificate and
of analyzeRobotsTxt are evaluated only when HTTPS, respectively the
robots.txt file, is present; within those provisos each rule depends only
on its own measured quantity and the deductions sum. -/
theorem penalty_rules_stack :
    (∀ loadTime totalSize imageSize cssSize jsSize : ℕ,
      (analyzePageSpeed loadTime totalSize imageSize cssSize jsSize).score =
        max (100 - (loadTimeDeduction loadTime + totalSizeDeduction totalSize +
          imageSizeDeduction imageSize + cssSizeDeduction cssSize +
          jsSizeDeduction jsSize)) 0) ∧
    (∀ (hasSSL : Bool) (daysToExpire : ℕ) (hasHSTS : Bool) (mixedContent : ℕ),
      (analyzeSSLCertificate hasSSL daysToExpire hasHSTS mixedContent).score =
        if hasSSL then
          max (100 - (sslExpiryDeduction daysToExpire + sslHSTSDeduction hasHSTS +
            sslMixedContentDeduction mixedContent)) 0
        else 0) ∧
    (∀ hasRobotsTxt blocksImportantPages hasSitemapReference blocksCSS : Bool,
      (analyzeRobotsTxt hasRobotsTxt blocksImportantPages hasSitemapReference blocksCSS).score =
        if hasRobotsTxt then
          max (100 - (robotsBlocksPagesDeduction blocksImportantPages +
            robotsSitemapRefDeduction hasSitemapReference +
            robotsBlocksCSSDeduction blocksCSS)) 0
        else 60) := by
  refine ⟨?_, ?_, ?_⟩
  · intros
    simp only [analyzePageSpeed, loadTimeDeduction, totalSizeDeduction, imageSizeDeduction,
      cssSizeDeduction, jsSizeDeduction]
    split_ifs <;> dsimp only <;> omega
  · intro hasSSL daysToExpire hasHSTS mixedContent
    simp only [analyzeSSLCertificate, sslExpiryDeduction, sslHSTSDeduction,
      sslMixedContentDeduction]
    split_ifs <;> simp_all <;> omega
  · intro hasRobotsTxt blocksImportantPages hasSitemapReference blocksCSS
    simp only [analyzeRobotsTxt, robotsBlocksPagesDeduction,
      robotsSitemapRefDeduction, robotsBlocksCSSDeduction]
    split_ifs <;> simp_all <;> omega

/-- C7: dispatching generateDetailedAnalysis on a metric key outside the
twelve defined keys substitutes the defined fallback MetricResult — score
50, status poor, empty recommendations — and evaluation is total, so the
run continues instead of surfacing a terminal error. -/
theorem unknown_metric_fallback (metricKey : String) (m : Measurements)
    (h : metricKey ∉ validMetricKeys) :
    generateMetricResult metricKey m =
      { score := 50, status := .poor, recommendations := [], details := "", issues := [] } := by
  simp only [validMetricKeys, List.mem_cons, List.not_mem_nil, or_false, not_or] at h
  obtain ⟨h1, h2, h3, h4, h5, h6, h7, h8, h9, h10, h11, h12⟩ := h
  unfold generateMetricResult generateDetailedAnalysis
  rw [if_neg h1, if_neg h2, if_neg h3, if_neg h4, if_neg h5, if_neg h6, if_neg h7, if_neg h8,
    if_neg h9, if_neg h10, if_neg h11, if_neg h12]
  rfl

/-- Sample measurement bundle used to instantiate witnesses. -/
def sampleMeasurements : Measurements :=
  ⟨0, 0, 0, 0, 0, false, 0, 0, 0, false, 0, 0, false, false, 0, 0, 0, 0, 0, 0,
   0, 0, 0, 0, 0, 0, 0, 0, 0, 0, false, 0, false, 0, false, false, false, false,
   0, 0, 0, 0, 0, 0, false, false, false, 0, false, false, false, false, false,
   0, 0, false, false⟩

/-- Witness for unknown_metric_fallback at the key totalScore, which is not
one of the twelve metric keys. -/
theorem unknown_metric_fallback_witness :
    ("totalScore" ∉ validMetricKeys) ∧
    generateMetricResult "totalScore" sampleMeasurements =
      { score := 50, status := .poor, recommendations := [], details := "", issues := [] } :=
  ⟨by decide, unknown_metric_fallback "totalScore" sampleMeasurements (by decide)⟩

/-- Helper: a prefix consisting solely of progress events does not change
what the consumer loop computes on the rest of the stream. -/
theorem consumeEvents_skip_progress {α : Type} (pre : List (SSEvent α))
    (h : ∀ e ∈ pre, e.isProgress) (suffix : List (SSEvent α)) (acc : Option α) :
    consumeEvents (pre ++ suffix) acc = consumeEvents suffix acc := by
  induction pre with
  | nil => rfl
  | cons e rest ih =>
    cases e with
    | progress message =>
      simpa [consumeEvents] using ih (fun x hx => h x (List.mem_cons_of_mem _ hx))
    | complete data =>
      exact absurd (h _ (List.mem_cons_self _ _)) (by simp [SSEvent.isProgress])
    | error message =>
      exact absurd (h _ (List.mem_cons_self _ _)) (by simp [SSEvent.isProgress])

/-- C8: only the terminal event of a run's event stream determines the
outcome for the caller: after a prefix of informational progress events, an
error event makes performAnalysis fail with that event's message, a
complete event makes it return that event's payload, a stream that ends
with no terminal event fails with 未收到分析结果, and a leading progress
event never changes the outcome. -/
theorem performAnalysis_terminal_event {α : Type} :
    (∀ (pre rest : List (SSEvent α)) (message : String), (∀ e ∈ pre, e.isProgress) →
      performAnalysis (pre ++ SSEvent.error message :: rest) = .error message) ∧
    (∀ (pre : List (SSEvent α)) (data : α), (∀ e ∈ pre, e.isProgress) →
      performAnalysis (pre ++ [SSEvent.complete data]) = .ok data) ∧
    (∀ events : List (SSEvent α), (∀ e ∈ events, e.isProgress) →
      performAnalysis events = .error "未收到分析结果") ∧
    (∀ (message : String) (rest : List (SSEvent α)),
      performAnalysis (SSEvent.progress message :: rest) = performAnalysis rest) := by
  refine ⟨?_, ?_, ?_, fun _ _ => rfl⟩
  · intro pre rest message h
    unfold performAnalysis
    rw [consumeEvents_skip_progress pre h]
    rfl
  · intro pre data h
    unfold performAnalysis
    rw [consumeEvents_skip_progress pre h]
    rfl
  · intro events h
    unfold performAnalysis
    rw [show events = events ++ [] by simp, consumeEvents_skip_progress events h]
    rfl

/-- Witness for performAnalysis_terminal_event on concrete streams over a
natural-number payload. -/
theorem performAnalysis_terminal_event_witness :
    ((∀ e ∈ ([SSEvent.progress "开始分析"] : List (SSEvent ℕ)), e.isProgress) ∧
      performAnalysis ([SSEvent.progress "开始分析"] ++ SSEvent.error "分析失败" :: []) =
        (.error "分析失败" : Except String ℕ)) ∧
    (performAnalysis ([SSEvent.progress "开始分析"] ++ [SSEvent.complete (96 : ℕ)]) =
      .ok 96) ∧
    (performAnalysis ([SSEvent.progress "开始分析"] : List (SSEvent ℕ)) =
      .error "未收到分析结果") := by
  refine ⟨⟨by decide, ?_⟩, ?_, ?_⟩
  · exact performAnalysis_terminal_event.1 [SSEvent.progress "开始分析"] [] "分析失败"
      (by decide)
  · exact performAnalysis_terminal_event.2.1 [SSEvent.progress "开始分析"] 96 (by decide)
  · exact performAnalysis_terminal_event.2.2.1 [SSEvent.progress "开始分析"] (by decide)

/-- C1: the total-score aggregator modelled from the spec computes
weightedSum = Σ score·weight and totalScore = round (weightedSum / 100 *
1.2) clamped to 0-120; over any weight table summing to 100, twelve scores
of 100 give totalScore 120 with status excellent and twelve scores of 0
give totalScore 0 with status poor. -/
theorem aggregate_boundary (weights : MetricKey → ℕ)
    (h : (allMetricKeys.map weights).sum = 100) :
    aggregate (fun _ => 100) weights = (120, Status.excellent) ∧
    aggregate (fun _ => 0) weights = (0, Status.poor) := by
  simp only [allMetricKeys, List.map_cons, List.map_nil, List.sum_cons, List.sum_nil] at h
  constructor
  · simp only [aggregate, allMetricKeys, List.map_cons, List.map_nil, List.sum_cons,
      List.sum_nil]
    have hws : 100 * weights .pageSpeed + (100 * weights .mobileOptimization +
        (100 * weights .metaTags + (100 * weights .headingStructure +
        (100 * weights .imageOptimization + (100 * weights .internalLinking +
        (100 * weights .sslCertificate + (100 * weights .socialMediaTags +
        (100 * weights .contentQuality + (100 * weights .urlStructure +
        (100 * weights .robotsTxt + (100 * weights .sitemap + 0))))))))))) = 10000 := by
      omega
    rw [hws]
    norm_num [jsRound]
    decide
  · simp only [aggregate, allMetricKeys, List.map_cons, List.map_nil, List.sum_cons,
      List.sum_nil, zero_mul, add_zero]
    norm_num [jsRound]
    decide

/-- Witness for aggregate_boundary at the concrete frontend weight table,
which sums to 100. -/
theorem aggregate_boundary_witness :
    ((allMetricKeys.map metricWeight).sum = 100) ∧
    aggregate (fun _ => 100) metricWeight = (120, Status.excellent) ∧
    aggregate (fun _ => 0) metricWeight = (0, Status.poor) :=
  ⟨by decide, (aggregate_boundary metricWeight (by decide)).1,
    (aggregate_boundary metricWeight (by decide)).2⟩

/-- C6: the weight data is constant: the metric key set has exactly 12
distinct keys and every key occurs; the frontend weight table of
setupMetrics sums to exactly 100 over them; and each of the three
spec-modelled per-category profiles assigns a weight to all 12 keys (it is
a total function) and sums to exactly 100, with exactly one profile per
category given by the total selection function specProfile. -/
theorem weight_profiles_invariant :
    allMetricKeys.length = 12 ∧
    allMetricKeys.Nodup ∧
    (∀ k : MetricKey, k ∈ allMetricKeys) ∧
    (allMetricKeys.map metricWeight).sum = 100 ∧
    (∀ c : WebsiteCategory, (allMetricKeys.map (specProfile c)).sum = 100) := by
  refine ⟨by decide, by decide, ?_, by decide, ?_⟩
  · intro k
    cases k <;> decide
  · intro c
    cases c <;> (simp only [allMetricKeys, specProfile, List.map_cons, List.map_nil,
      List.sum_cons, List.sum_nil]; norm_num)

/-- C10: collectAllIssues returns exactly the metrics scoring strictly
below 75 (a permutation of the filtered, severity-tagged entries), sorted
in non-decreasing severity rank, and the severity tag is the pure threshold
function of the score: below 30 critical, below 50 high, below 65 medium,
otherwise low. -/
theorem collectAllIssues_spec (results : List (MetricKey × MetricResult)) :
    (collectAllIssues results).Perm
      ((results.filter (fun kr => kr.2.score < 75)).map
        (fun kr => extractIssueData (metricName kr.1) kr.2 (getIssueSeverity kr.2.score))) ∧
    (collectAllIssues results).Pairwise
      (fun a b => severityOrder a.severity ≤ severityOrder b.severity) ∧
    (∀ s : ℤ,
      (getIssueSeverity s = .critical ↔ s < 30) ∧
      (getIssueSeverity s = .high ↔ 30 ≤ s ∧ s < 50) ∧
      (getIssueSeverity s = .medium ↔ 50 ≤ s ∧ s < 65) ∧
      (getIssueSeverity s = .low ↔ 65 ≤ s)) := by
  refine ⟨List.mergeSort_perm _ _, ?_, ?_⟩
  · simp only [collectAllIssues]
    refine List.Pairwise.imp (fun hab => of_decide_eq_true hab) (List.sorted_mergeSort ?_ ?_ _)
    · intro a b c hab hbc
      simp only [decide_eq_true_eq] at hab hbc ⊢
      omega
    · intro a b
      simp only [Bool.or_eq_true, decide_eq_true_eq]
      omega
  · intro s
    unfold getIssueSeverity
    split_ifs <;> refine ⟨?_, ?_, ?_, ?_⟩ <;> simp <;> omega
